import Mathlib

/-!
# wscat: the send / receive / prompt goroutines of `connectAndRun`

A shallow embedding of `src/main.go`.  The three goroutines started by
`connectAndRun`, the interrupt handler and the function's own tail
(`wg.Wait()`, `return nil` and the deferred calls) are modelled as one
interleaving transition system: every blocking point of the source is a
program counter, every atomic move of a goroutine is an `Event`, and `step`
gives the successor state when the event is enabled.

Go strings are modelled at the level of runes (`List Char`); a byte that is
not valid UTF-8 decodes to U+FFFD, which is not white space, so it behaves as
any other non-space rune for `strings.TrimSpace`.
-/

namespace Wscat

/-- A Go string, as its sequence of runes. -/
abbrev GoString := List Char

/-- Go's `unicode.IsSpace`: the Latin-1 spaces and the `White_Space` table. -/
def isSpace (r : Char) : Bool :=
  let c := r.toNat
  c == 0x09 || c == 0x0A || c == 0x0B || c == 0x0C || c == 0x0D || c == 0x20 ||
  c == 0x85 || c == 0xA0 || c == 0x1680 || (0x2000 ≤ c && c ≤ 0x200A) ||
  c == 0x2028 || c == 0x2029 || c == 0x202F || c == 0x205F || c == 0x3000

/-- Go's `strings.TrimSpace`: leading, then trailing white space removed. -/
def TrimSpace (s : GoString) : GoString :=
  (s.dropWhile isSpace).rdropWhile isSpace

/-- Function `readUserInput` (main.go 134-138): `line` is what
`reader.ReadString` returned (the read error is discarded by the source). -/
def readUserInput (line : GoString) : GoString :=
  TrimSpace line

/-- An `error` value as `conn.ReadMessage` / `conn.WriteMessage` return it:
either a `*websocket.CloseError` with its close code, or anything else. -/
inductive GoError where
  | closeError (code : Int) (text : GoString)
  | other (msg : GoString)
  deriving DecidableEq, Repr

/-- Constant `websocket.CloseNormalClosure`. -/
def CloseNormalClosure : Int := 1000

/-- Function `websocket.IsCloseError`: the error is a close error whose code is
one of `codes`. -/
def IsCloseError (err : GoError) (codes : List Int) : Bool :=
  match err with
  | .closeError code _ => codes.any (fun c => code == c)
  | .other _ => false

/-- A line the program prints on standard output. -/
inductive Line where
  /-- Line 45: `WebSocket connection established successfully`. -/
  | established
  /-- Lines 46 and 124: the prompt `Enter message (or 'exit' to quit): `. -/
  | prompt
  /-- Line 75. -/
  | sendStopped
  /-- Line 85. -/
  | writeError (err : GoError)
  /-- Line 101. -/
  | recvStopped
  /-- Line 107: `connection closed`. -/
  | connectionClosed
  /-- Line 109: `read error:` and the error. -/
  | readError (err : GoError)
  /-- Line 114: `Received from server:` and the payload. -/
  | received (message : GoString)
  deriving DecidableEq, Repr

/-- Where the send goroutine (lines 70-93) stands. -/
inductive SendPC where
  /-- Blocked in the `select` of line 73. -/
  | select
  /-- Inside `readUserInput()` (line 78), having received from `canSend`. -/
  | readUserInput
  /-- Inside `conn.WriteMessage` (line 83) with the trimmed message. -/
  | writeMessage (message : GoString)
  /-- At `canSend <- false` (line 90). -/
  | canSendFalse
  /-- The goroutine has returned (`wg.Done()` has run). -/
  | returned
  deriving DecidableEq, Repr

/-- Where the receive goroutine (lines 96-119) stands. -/
inductive RecvPC where
  /-- At the `select` of line 99. -/
  | select
  /-- Blocked inside `conn.ReadMessage()` (line 104). -/
  | readMessage
  /-- At `promptChan <- struct{}{}` (line 116), the payload already printed. -/
  | promptChanSend
  /-- The goroutine has returned (`wg.Done()` has run). -/
  | returned
  deriving DecidableEq, Repr

/-- Where the prompt goroutine (lines 122-127) stands. -/
inductive PromptPC where
  /-- Blocked in `for range promptChan` (line 123). -/
  | range
  /-- At `canSend <- true` (line 125), the prompt already printed. -/
  | canSendTrue
  deriving DecidableEq, Repr

/-- Where the interrupt handler (lines 52-56) stands. -/
inductive SigPC where
  /-- Blocked in `<-ch` (line 53). -/
  | waiting
  /-- After `cancel()` (line 54), before `conn.Close()` (line 55). -/
  | connClose
  /-- The handler has finished. -/
  | returned
  deriving DecidableEq, Repr

/-- Where `connectAndRun` itself stands after starting the goroutines. -/
inductive MainPC where
  /-- Blocked in `wg.Wait()` (line 130). -/
  | wgWait
  /-- Returned `nil`; the deferred `cancel()` and `conn.Close()` have run. -/
  | returned
  deriving DecidableEq, Repr

/-- Capacity of `canSend` (`make(chan bool, 1)`, line 63). -/
def canSendCap : Nat := 1

/-- The shared state of one run of `connectAndRun` after a successful dial. -/
structure State where
  /-- The buffer of channel `canSend`. -/
  canSend : List Bool
  /-- Whether `ctx.Done()` is closed, that is `cancel()` has been called. -/
  ctxDone : Bool
  /-- How many times `conn.Close()` has been called. -/
  connCloseCalls : Nat
  /-- The messages `conn.WriteMessage` has written successfully, oldest first. -/
  written : List GoString
  /-- The lines printed so far, oldest first. -/
  stdout : List Line
  send : SendPC
  recv : RecvPC
  prompt : PromptPC
  sig : SigPC
  main : MainPC
  deriving DecidableEq, Repr

/-- The state when the three goroutines have just been started: `canSend`
holds the `true` of line 64, lines 45 and 46 have printed. -/
def init : State where
  canSend := [true]
  ctxDone := false
  connCloseCalls := 0
  written := []
  stdout := [.established, .prompt]
  send := .select
  recv := .select
  prompt := .range
  sig := .waiting
  main := .wgWait

/-- One atomic move of the system. -/
inductive Event where
  /-- Send goroutine, lines 74-76: the `ctx.Done()` case of the select. -/
  | sendCtxDone
  /-- Send goroutine, line 77: the `<-canSend` case of the select. -/
  | sendRecvCanSend
  /-- Send goroutine, lines 78-82: `readUserInput` returns for this line. -/
  | stdinLine (line : GoString)
  /-- Send goroutine, line 83: `conn.WriteMessage` returns `nil`. -/
  | writeOk
  /-- Send goroutine, lines 83-88: `conn.WriteMessage` returns an error. -/
  | writeErr (err : GoError)
  /-- Send goroutine, line 90: `canSend <- false` completes. -/
  | sendCanSendFalse
  /-- Receive goroutine, lines 99-103: the select with `default`. -/
  | recvSelect
  /-- Receive goroutine, lines 104 and 114: a message arrives and is printed. -/
  | readOk (message : GoString)
  /-- Receive goroutine, lines 104-113: `conn.ReadMessage` returns an error. -/
  | readErr (err : GoError)
  /-- Line 116 meets line 123: the unbuffered `promptChan` hands one
  notification from the receive goroutine to the prompt goroutine, which
  prints the prompt (line 124). -/
  | promptChanHandoff
  /-- Prompt goroutine, line 125: `canSend <- true` completes. -/
  | promptCanSendTrue
  /-- Interrupt handler, lines 53-54: the signal arrives, `cancel()` is called. -/
  | interrupt
  /-- Interrupt handler, line 55: `conn.Close()`. -/
  | sigConnClose
  /-- Tail of `connectAndRun`, lines 130-131 and the deferred calls of lines 49
  and 43: `wg.Wait()` returns, `cancel()` and `conn.Close()` run. -/
  | wgWaitReturn
  deriving DecidableEq, Repr

/-- The successor of `s` under event `e`, or `none` when `e` is not enabled in
`s` (the goroutine is elsewhere, or its channel operation would block).  A
receive from `canSend` takes whatever value is buffered (line 77 discards it);
a send on `canSend` needs room in the buffer; the unbuffered `promptChan`
needs sender and receiver together.  On a connection that `conn.Close()` has
closed, `conn.WriteMessage` and `conn.ReadMessage` only return errors; on an
open one either may also fail.  Once `connectAndRun` has returned the process
exits and nothing moves. -/
def step (e : Event) (s : State) : Option State :=
  if s.main = .returned then none else
  match e with
  | .sendCtxDone =>
    if s.send = .select ∧ s.ctxDone = true then
      some { s with send := .returned, stdout := s.stdout ++ [.sendStopped] }
    else none
  | .sendRecvCanSend =>
    match s.send, s.canSend with
    | .select, _ :: rest => some { s with send := .readUserInput, canSend := rest }
    | _, _ => none
  | .stdinLine line =>
    if s.send = .readUserInput then
      let message := readUserInput line
      if message = "exit".toList then
        some { s with ctxDone := true, send := .returned }
      else
        some { s with send := .writeMessage message }
    else none
  | .writeOk =>
    match s.send with
    | .writeMessage message =>
      if s.connCloseCalls = 0 then
        some { s with written := s.written ++ [message], send := .canSendFalse }
      else none
    | _ => none
  | .writeErr err =>
    match s.send with
    | .writeMessage _ =>
      some { s with stdout := s.stdout ++ [.writeError err], ctxDone := true,
                    send := .returned }
    | _ => none
  | .sendCanSendFalse =>
    if s.send = .canSendFalse ∧ s.canSend.length < canSendCap then
      some { s with canSend := s.canSend ++ [false], send := .select }
    else none
  | .recvSelect =>
    if s.recv = .select then
      if s.ctxDone = true then
        some { s with recv := .returned, stdout := s.stdout ++ [.recvStopped] }
      else
        some { s with recv := .readMessage }
    else none
  | .readOk message =>
    if s.recv = .readMessage ∧ s.connCloseCalls = 0 then
      some { s with stdout := s.stdout ++ [.received message], recv := .promptChanSend }
    else none
  | .readErr err =>
    if s.recv = .readMessage then
      some { s with
        stdout := s.stdout ++
          [if IsCloseError err [CloseNormalClosure] then .connectionClosed
           else .readError err],
        ctxDone := true, recv := .returned }
    else none
  | .promptChanHandoff =>
    if s.recv = .promptChanSend ∧ s.prompt = .range then
      some { s with recv := .select, prompt := .canSendTrue,
                    stdout := s.stdout ++ [.prompt] }
    else none
  | .promptCanSendTrue =>
    if s.prompt = .canSendTrue ∧ s.canSend.length < canSendCap then
      some { s with canSend := s.canSend ++ [true], prompt := .range }
    else none
  | .interrupt =>
    if s.sig = .waiting then
      some { s with ctxDone := true, sig := .connClose }
    else none
  | .sigConnClose =>
    if s.sig = .connClose then
      some { s with connCloseCalls := s.connCloseCalls + 1, sig := .returned }
    else none
  | .wgWaitReturn =>
    if s.send = .returned ∧ s.recv = .returned then
      some { s with ctxDone := true, connCloseCalls := s.connCloseCalls + 1,
                    main := .returned }
    else none

/-- Runs a schedule, event by event; `none` when some event is not enabled. -/
def run : List Event → State → Option State
  | [], s => some s
  | e :: es, s => (step e s).bind (run es)

/-- The states the system can be in, started from `init`. -/
def Reachable (s : State) : Prop :=
  ∃ es : List Event, run es init = some s

/-- Number of replies the receive goroutine has delivered (printed, line 114). -/
def delivered (s : State) : Nat :=
  (s.stdout.filter (fun l => match l with | .received _ => true | _ => false)).length

/-- Number of times an event occurs in a schedule. -/
def occurrences (e : Event) (es : List Event) : Nat :=
  es.count e

/-! ## Schedules used below -/

/-- One pass of the send goroutine's loop body on the operator line `a`: the
receive from `canSend`, the line read, a successful write and line 90. -/
def sendPass : List Event :=
  [.sendRecvCanSend, .stdinLine "a\n".toList, .writeOk, .sendCanSendFalse]

/-- The operator types `n` lines one after the other; the server stays silent. -/
def sendOnly : Nat → List Event
  | 0 => []
  | n + 1 => sendOnly n ++ sendPass

/-- First line sent, one reply delivered, prompt reprinted and `canSend <- true`
done, then a second line sent: the schedule up to the second write. -/
def secondSend : List Event :=
  [.sendRecvCanSend, .stdinLine "a\n".toList, .writeOk, .sendCanSendFalse,
   .sendRecvCanSend, .recvSelect, .readOk "r".toList, .promptChanHandoff,
   .promptCanSendTrue, .stdinLine "b\n".toList, .writeOk]

/-- The state `secondSend` leads to. -/
def afterSecondSend : State :=
  { init with
    canSend := [true]
    written := ["a".toList, "b".toList]
    stdout := [.established, .prompt, .received "r".toList, .prompt]
    send := .canSendFalse
    recv := .select }

/-- The send goroutine has received from `canSend` and is inside
`readUserInput`; the receive goroutine is inside `conn.ReadMessage`. -/
def awaitingLine : State :=
  { init with canSend := [], send := .readUserInput, recv := .readMessage }

/-- The operator types `exit` as the first line while the receive goroutine is
blocked in `conn.ReadMessage`. -/
def exitTyped : List Event :=
  [.sendRecvCanSend, .recvSelect, .stdinLine "exit\n".toList]

/-- The state `exitTyped` leads to. -/
def afterExitTyped : State :=
  { awaitingLine with ctxDone := true, send := .returned }

/-- The operator types nothing while the server delivers two replies: the
first one is handed over and the gate reopened, the second one is handed over
too and the prompt goroutine reaches `canSend <- true` again. -/
def twoReplies : List Event :=
  [.sendRecvCanSend, .recvSelect, .readOk "r1".toList, .promptChanHandoff,
   .promptCanSendTrue, .recvSelect, .readOk "r2".toList, .promptChanHandoff]

/-- The state after the first four events of `twoReplies`: the first reply is
printed and handed over, the prompt goroutine stands at `canSend <- true`. -/
def afterFirstReply : State :=
  { init with
    canSend := []
    stdout := [.established, .prompt, .received "r1".toList, .prompt]
    send := .readUserInput
    recv := .select
    prompt := .canSendTrue }

/-- The state `twoReplies` leads to. -/
def afterTwoReplies : State :=
  { init with
    canSend := [true]
    stdout := [.established, .prompt, .received "r1".toList, .prompt, .received "r2".toList, .prompt]
    send := .readUserInput
    recv := .select
    prompt := .canSendTrue }

/-- After `twoReplies`, a third reply is delivered and then the operator types
`exit`. -/
def repliesThenExit : List Event :=
  twoReplies ++ [.recvSelect, .readOk "r3".toList, .stdinLine "exit\n".toList]

/-- The state `repliesThenExit` leads to. -/
def afterRepliesThenExit : State :=
  { afterTwoReplies with
    ctxDone := true
    stdout := afterTwoReplies.stdout ++ [.received "r3".toList]
    send := .returned
    recv := .promptChanSend }

/-- An interrupt closes the connection, the receive goroutine gets the read
error, the operator types `exit`, `connectAndRun` returns. -/
def interruptThenReturn : List Event :=
  [.sendRecvCanSend, .recvSelect, .interrupt, .sigConnClose,
   .readErr (.other "use of closed network connection".toList),
   .stdinLine "exit\n".toList, .wgWaitReturn]

/-- Whether the send goroutine holds a value it received from `canSend` and has
not yet come back to its select: one for the program counters between line 77
and line 90, zero at the select and after returning. -/
def holdsTurn : SendPC → Nat
  | .readUserInput => 1
  | .writeMessage _ => 1
  | .canSendFalse => 1
  | .select => 0
  | .returned => 0

/-- One cycle: operator line sent, reply received, prompt reprinted and gate
reopened.  The prompt goroutine's `canSend <- true` is enabled only once the
send goroutine has taken the `false` of line 90 out of `canSend`. -/
def oneCycle : List Event :=
  [.sendRecvCanSend, .stdinLine "a\n".toList, .writeOk, .sendCanSendFalse,
   .recvSelect, .readOk "r".toList, .promptChanHandoff,
   .sendRecvCanSend, .promptCanSendTrue]

/-- The state `oneCycle` leads to. -/
def afterOneCycle : State :=
  { init with
    canSend := [true]
    written := ["a".toList]
    stdout := [.established, .prompt, .received "r".toList, .prompt]
    send := .readUserInput
    recv := .select }

/-- The send goroutine is inside `conn.WriteMessage` with the message `a`
while the receive goroutine is inside `conn.ReadMessage`. -/
def writingWhileReading : State :=
  { init with canSend := [], send := .writeMessage "a".toList, recv := .readMessage }

/-- The state `interruptThenReturn` leads to. -/
def afterInterruptThenReturn : State :=
  { init with
    canSend := []
    ctxDone := true
    connCloseCalls := 2
    stdout := [.established, .prompt, .readError (.other "use of closed network connection".toList)]
    send := .returned
    recv := .returned
    sig := .returned
    main := .returned }

/-- A state in which the send goroutine is inside `conn.WriteMessage` with the
message `a`, holding the value it received from `canSend`. -/
def holdingTurn : State :=
  { init with canSend := [], send := .writeMessage "a".toList }

/-! ## Lemmas on schedules -/

theorem run_append (es fs : List Event) (s : State) :
    run (es ++ fs) s = (run es s).bind (run fs) := by
  induction es generalizing s with
  | nil => simp [run]
  | cons e es ih =>
    cases h : step e s with
    | none => simp [run, h]
    | some t => simp [run, h, ih]

theorem run_snoc (es : List Event) (e : Event) (s s' : State) :
    run (es ++ [e]) s = some s' ↔ ∃ t, run es s = some t ∧ step e t = some s' := by
  rw [run_append]
  cases h : run es s with
  | none => simp
  | some t =>
    cases h' : step e t <;> simp [run, h']

/-- A property kept by every enabled step is kept along every schedule. -/
theorem run_preserves (P : State → Prop)
    (hP : ∀ e s s', P s → step e s = some s' → P s') :
    ∀ (es : List Event) (s s' : State), P s → run es s = some s' → P s' := by
  intro es
  induction es with
  | nil =>
    intro s s' hs h
    simp only [run, Option.some.injEq] at h
    exact h ▸ hs
  | cons e es ih =>
    intro s s' hs h
    cases hst : step e s with
    | none => simp [run, hst] at h
    | some t =>
      simp only [run, hst, Option.some_bind] at h
      exact ih t s' (hP e s t hs hst) h

/-- With the gate full and the sender at `canSend <- false`, every enabled step
leaves both as they are. -/
theorem step_keeps_sender_at_put (e : Event) (s s' : State)
    (hs : s.send = .canSendFalse ∧ s.canSend.length = 1)
    (h : step e s = some s') :
    s'.send = .canSendFalse ∧ s'.canSend.length = 1 := by
  obtain ⟨h1, h2⟩ := hs
  cases e <;> simp only [step] at h <;> (repeat' split at h) <;>
    cases h <;> simp_all [canSendCap]

/-- Once the send goroutine has returned it stays returned and nothing more is
written. -/
theorem step_keeps_sender_returned (w : List GoString) (e : Event) (s s' : State)
    (hs : s.send = .returned ∧ s.written = w) (h : step e s = some s') :
    s'.send = .returned ∧ s'.written = w := by
  obtain ⟨h1, h2⟩ := hs
  cases e <;> simp only [step] at h <;> (repeat' split at h) <;>
    cases h <;> simp_all

/-- Once the receive goroutine has returned it stays returned and nothing more
is delivered. -/
theorem step_keeps_receiver_returned (k : Nat) (e : Event) (s s' : State)
    (hs : s.recv = .returned ∧ delivered s = k) (h : step e s = some s') :
    s'.recv = .returned ∧ delivered s' = k := by
  obtain ⟨h1, h2⟩ := hs
  cases e <;> simp only [step] at h <;> (repeat' split at h) <;>
    cases h <;> simp_all [delivered, List.filter_append]

/-- With the send goroutine gone, the gate full, the prompt goroutine at
`canSend <- true` and the receive goroutine at `promptChan <- struct{}{}`,
every enabled step leaves all of that as it is. -/
theorem step_keeps_receiver_at_enqueue (e : Event) (s s' : State)
    (hs : s.send = .returned ∧ s.canSend.length = 1 ∧ s.prompt = .canSendTrue ∧
      s.recv = .promptChanSend ∧ s.main = .wgWait)
    (h : step e s = some s') :
    s'.send = .returned ∧ s'.canSend.length = 1 ∧ s'.prompt = .canSendTrue ∧
      s'.recv = .promptChanSend ∧ s'.main = .wgWait := by
  obtain ⟨h1, h2, h3, h4, h5⟩ := hs
  cases e <;> simp only [step] at h <;> (repeat' split at h) <;>
    cases h <;> simp_all [canSendCap]

/-- The buffer of `canSend` never holds more than its capacity. -/
theorem step_keeps_canSend_le (e : Event) (s s' : State)
    (hs : s.canSend.length ≤ canSendCap) (h : step e s = some s') :
    s'.canSend.length ≤ canSendCap := by
  cases e <;> simp only [step] at h <;> (repeat' split at h) <;>
    cases h <;> simp_all [canSendCap]

/-- Every call of `conn.Close()` is the interrupt handler's or the deferred one. -/
theorem step_keeps_close_calls (e : Event) (s s' : State)
    (hs : s.connCloseCalls =
      (if s.sig = .returned then 1 else 0) + (if s.main = .returned then 1 else 0))
    (h : step e s = some s') :
    s'.connCloseCalls =
      (if s'.sig = .returned then 1 else 0) + (if s'.main = .returned then 1 else 0) := by
  cases e <;> simp only [step] at h <;> (repeat' split at h) <;>
    cases h <;> simp only [↓reduceIte, reduceCtorEq] <;> split_ifs at hs ⊢ <;>
    first
    | omega
    | simp_all

/-- While the send goroutine runs, the values in `canSend` plus the one the send
goroutine may hold are the initial one plus one for each `canSend <- true` of
the prompt goroutine; and `canSend` holds at most one value. -/
theorem tokens_invariant (es : List Event) :
    ∀ s, run es init = some s →
      s.canSend.length ≤ 1 ∧
      (s.send ≠ .returned →
        s.canSend.length + holdsTurn s.send = 1 + occurrences .promptCanSendTrue es) := by
  induction es using List.reverseRecOn with
  | nil =>
    intro s h
    simp only [run, Option.some.injEq] at h
    subst h
    simp [init, holdsTurn, occurrences]
  | append_singleton es e ih =>
    intro s h
    obtain ⟨t, ht, hstep⟩ := (run_snoc es e init s).mp h
    obtain ⟨hle, hinv⟩ := ih t ht
    cases e <;> simp only [step] at hstep <;> (repeat' split at hstep) <;>
      cases hstep <;>
      (simp_all [occurrences, List.count_append, holdsTurn, canSendCap]; try omega)

/-- The send loop body on a line other than `exit`, from the select with a
value in `canSend`, an open connection and a successful write: the message is
written and `canSend` holds `false`. -/
theorem run_sendPass (s : State) (b : Bool) (hs : s.send = .select)
    (hg : s.canSend = [b]) (hc : s.connCloseCalls = 0) (hm : s.main = .wgWait) :
    run sendPass s = some { s with canSend := [false],
                                   written := s.written ++ ["a".toList] } := by
  have ht : readUserInput "a\n".toList = "a".toList := by decide
  have hne : ¬ ("a".toList = "exit".toList) := by decide
  cases s
  simp_all [sendPass, run, step, canSendCap]

/-- After `n` passes with a silent server the send goroutine is back at its
select with a value in `canSend`, `n` messages written, nothing printed. -/
theorem run_sendOnly (n : Nat) :
    ∃ s, run (sendOnly n) init = some s ∧ s.send = .select ∧ s.canSend.length = 1 ∧
      s.connCloseCalls = 0 ∧ s.main = .wgWait ∧ s.stdout = [.established, .prompt] ∧
      s.written.length = n := by
  induction n with
  | zero => exact ⟨init, rfl, rfl, rfl, rfl, rfl, rfl, rfl⟩
  | succ n ih =>
    obtain ⟨s, hrun, hs, hg, hc, hm, ho, hw⟩ := ih
    obtain ⟨b, hb⟩ := List.length_eq_one.mp hg
    refine ⟨{ s with canSend := [false], written := s.written ++ ["a".toList] },
      ?_, ?_⟩
    · rw [sendOnly, run_append, hrun, Option.some_bind]
      exact run_sendPass s b hs hb hc hm
    · simp [hs, hc, hm, ho, hw]

/-! ## C1: turn alternation -/

/-- C1 (fails on the code): for every `n` there is a reachable state in which
the send goroutine has written `n` messages while the receive goroutine has
delivered no reply at all; `canSend <- false` (line 90) puts a value into the
gate which the next `<-canSend` (line 77) takes. -/
theorem sender_writes_without_replies (n : Nat) :
    ∃ s, Reachable s ∧ s.written.length = n ∧ delivered s = 0 := by
  obtain ⟨s, hrun, _, _, _, _, ho, hw⟩ := run_sendOnly n
  exact ⟨s, ⟨sendOnly n, hrun⟩, hw, by simp [delivered, ho]⟩

/-! ## C2: the sender after a successful transmit -/

/-- C2 (fails on the code): after send, reply delivered, gate reopened by the
prompt goroutine and a second successful write, cancellation has not been
raised and the send goroutine stands at `canSend <- false` with `canSend`
full; that send is not enabled, and along every further schedule the send
goroutine stays there. -/
theorem sender_blocked_on_gate_put :
    run secondSend init = some afterSecondSend ∧ afterSecondSend.ctxDone = false ∧
      afterSecondSend.send = .canSendFalse ∧
      step .sendCanSendFalse afterSecondSend = none ∧
      ∀ es s', run es afterSecondSend = some s' → s'.send = .canSendFalse := by
  refine ⟨by decide, by decide, by decide, by decide, ?_⟩
  intro es s' h
  exact (run_preserves (fun t => t.send = .canSendFalse ∧ t.canSend.length = 1)
    step_keeps_sender_at_put es _ s' (by decide) h).1

/-! ## C3: what a successful transmit does to the gate -/

/-- C3 (fails on the code): from any state in which the send goroutine holds its
turn inside `conn.WriteMessage`, the gate is empty and the connection is open,
the successful write followed by line 90 leaves `false` in `canSend`: the gate
goes from empty to occupied by a step of the send goroutine. -/
theorem transmit_refills_gate (s : State) (message : GoString)
    (hs : s.send = .writeMessage message) (hg : s.canSend = [])
    (hc : s.connCloseCalls = 0) (hm : s.main = .wgWait) :
    run [.writeOk, .sendCanSendFalse] s =
      some { s with written := s.written ++ [message], canSend := [false],
                    send := .select } := by
  cases s
  simp_all [run, step, canSendCap]

/-- C3 at the state `holdingTurn`. -/
theorem transmit_refills_gate_witness :
    run [.writeOk, .sendCanSendFalse] holdingTurn =
      some { holdingTurn with written := holdingTurn.written ++ ["a".toList],
                              canSend := [false], send := .select } :=
  transmit_refills_gate holdingTurn "a".toList rfl rfl rfl rfl

/-! ## C4: the exit command -/

/-- C4: when `readUserInput` returns for an operator line, with `t` the line
trimmed of surrounding white space: if `t` is `exit` the send goroutine calls
`cancel()` and returns, nothing is written then or ever after; otherwise it
calls `conn.WriteMessage` with exactly `t`, and a successful write adds exactly
`t` to what has been written. -/
theorem exit_command (s : State) (line : GoString)
    (hs : s.send = .readUserInput) (hm : s.main = .wgWait) :
    (TrimSpace line = "exit".toList →
      step (.stdinLine line) s = some { s with ctxDone := true, send := .returned } ∧
      ∀ es s', run es { s with ctxDone := true, send := .returned } = some s' →
        s'.send = .returned ∧ s'.written = s.written) ∧
    (TrimSpace line ≠ "exit".toList →
      step (.stdinLine line) s = some { s with send := .writeMessage (TrimSpace line) } ∧
      (s.connCloseCalls = 0 →
        run [.stdinLine line, .writeOk] s =
          some { s with written := s.written ++ [TrimSpace line],
                        send := .canSendFalse })) := by
  constructor
  · intro ht
    have ht' : TrimSpace line = ['e', 'x', 'i', 't'] := ht
    refine ⟨by simp [step, hs, hm, readUserInput, ht'], ?_⟩
    intro es s' h
    exact run_preserves (fun t => t.send = .returned ∧ t.written = s.written)
      (step_keeps_sender_returned s.written) es
      { s with ctxDone := true, send := .returned } s' ⟨rfl, rfl⟩ h
  · intro ht
    have ht' : ¬ TrimSpace line = ['e', 'x', 'i', 't'] := ht
    refine ⟨by simp [step, hs, hm, readUserInput, ht'], ?_⟩
    intro hc
    simp [run, step, hs, hm, hc, readUserInput, ht']

/-- C4 on the lines ` exit` (exit) and `Exit`, `EXIT` (transmitted as they are). -/
theorem exit_command_witness :
    step (.stdinLine " exit\r\n".toList) awaitingLine =
        some { awaitingLine with ctxDone := true, send := .returned } ∧
    step (.stdinLine "Exit\n".toList) awaitingLine =
        some { awaitingLine with send := .writeMessage "Exit".toList } ∧
    step (.stdinLine "EXIT\n".toList) awaitingLine =
        some { awaitingLine with send := .writeMessage "EXIT".toList } :=
  ⟨((exit_command awaitingLine " exit\r\n".toList rfl rfl).1 (by decide)).1,
   ((exit_command awaitingLine "Exit\n".toList rfl rfl).2 (by decide)).1,
   ((exit_command awaitingLine "EXIT\n".toList rfl rfl).2 (by decide)).1⟩

/-! ## C5: cancellation and the blocked receive -/

/-- C5 (fails on the code): after the operator types `exit`, `ctx` is cancelled,
the receive goroutine is still inside `conn.ReadMessage` and `conn.Close()` has
not been called; the only events enabled then come from outside the program
(an interrupt signal, a message from the server, a transport error). -/
theorem exit_leaves_receiver_blocked :
    run exitTyped init = some afterExitTyped ∧ afterExitTyped.ctxDone = true ∧
      afterExitTyped.recv = .readMessage ∧ afterExitTyped.connCloseCalls = 0 ∧
      ∀ e s', step e afterExitTyped = some s' →
        e = .interrupt ∨ (∃ message, e = .readOk message) ∨ ∃ err, e = .readErr err := by
  refine ⟨by decide, by decide, by decide, by decide, ?_⟩
  intro e s' h
  cases e <;> simp [step, afterExitTyped, awaitingLine, init] at h ⊢

/-! ## C6: the prompt notification and shutdown -/

/-- C6 (fails on the code): the server delivers three replies while the operator
types nothing, then the operator types `exit`.  The send goroutine has
returned, `ctx` is cancelled, nothing was ever written, and the receive
goroutine stands at `promptChan <- struct{}{}`; along every further schedule
(interrupts included) it stays there and `wg.Wait()` does not return. -/
theorem receiver_blocked_on_prompt_notification :
    run repliesThenExit init = some afterRepliesThenExit ∧
      afterRepliesThenExit.send = .returned ∧ afterRepliesThenExit.ctxDone = true ∧
      afterRepliesThenExit.written = [] ∧
      afterRepliesThenExit.recv = .promptChanSend ∧
      ∀ es s', run es afterRepliesThenExit = some s' →
        s'.recv = .promptChanSend ∧ s'.main = .wgWait := by
  refine ⟨by decide, by decide, by decide, by decide, by decide, ?_⟩
  intro es s' h
  have := run_preserves
    (fun t => t.send = .returned ∧ t.canSend.length = 1 ∧ t.prompt = .canSendTrue ∧
      t.recv = .promptChanSend ∧ t.main = .wgWait)
    step_keeps_receiver_at_enqueue es afterRepliesThenExit s' (by decide) h
  exact ⟨this.2.2.2.1, this.2.2.2.2⟩

/-! ## C7: releasing the gate -/

/-- C7 (as stated, fails): after two replies with no operator input the prompt
goroutine stands at `canSend <- true` while `canSend` already holds a value,
and the release step is not enabled. -/
theorem release_blocks_on_full_gate :
    run twoReplies init = some afterTwoReplies ∧
      afterTwoReplies.prompt = .canSendTrue ∧ afterTwoReplies.canSend = [true] ∧
      step .promptCanSendTrue afterTwoReplies = none := by
  decide

/-- C7 (amended): in every reachable state with the prompt goroutine at
`canSend <- true`, the gate holds at most one value; on an empty gate the
release is enabled, leaves exactly the one value `true` and returns the
prompt goroutine to `range promptChan`; on a gate that holds a value the
release is not enabled and neither is the next hand-over on `promptChan` (the
prompt goroutine waits at line 125, the gate keeps its value). -/
theorem release_enabled_iff_gate_empty (s : State) (hr : Reachable s)
    (hp : s.prompt = .canSendTrue) (hm : s.main = .wgWait) :
    s.canSend.length ≤ 1 ∧
    (s.canSend = [] →
      step .promptCanSendTrue s = some { s with canSend := [true], prompt := .range }) ∧
    (s.canSend ≠ [] →
      step .promptCanSendTrue s = none ∧ step .promptChanHandoff s = none) := by
  obtain ⟨es, hes⟩ := hr
  have hle : s.canSend.length ≤ canSendCap :=
    run_preserves (fun t => t.canSend.length ≤ canSendCap) step_keeps_canSend_le
      es init s (by decide) hes
  refine ⟨hle, ?_, ?_⟩
  · intro hg
    simp [step, hp, hm, hg, canSendCap]
  · intro hg
    have hpos : 0 < s.canSend.length := List.length_pos.mpr hg
    have hfull : ¬ s.canSend.length < canSendCap := by
      unfold canSendCap
      omega
    exact ⟨by simp [step, hp, hm, hfull], by simp [step, hp, hm]⟩

/-- C7 (amended) at the state after the first reply, where the gate is empty
and the release goes through, and at the state after two replies, where the
gate is full and the release is not enabled. -/
theorem release_enabled_iff_gate_empty_witness :
    step .promptCanSendTrue afterFirstReply =
        some { afterFirstReply with canSend := [true], prompt := .range } ∧
    step .promptCanSendTrue afterTwoReplies = none :=
  ⟨(release_enabled_iff_gate_empty afterFirstReply ⟨twoReplies.take 4, by decide⟩
      rfl rfl).2.1 rfl,
   (release_enabled_iff_gate_empty afterTwoReplies ⟨twoReplies, by decide⟩
      rfl rfl).2.2 (by decide) |>.1⟩

/-! ## C8: tokens after send / receive / reprompt cycles -/

/-- C8 (fails on the code): along every schedule from the initial state, once
the prompt goroutine has reopened the gate (one completed cycle or more) the
send goroutine is never at its select waiting for a turn; and as long as the
send goroutine has not returned the gate has been reopened at most once, so a
second cycle never completes. -/
theorem no_turn_wait_after_release (es : List Event) (s : State)
    (h : run es init = some s) (hrel : 1 ≤ occurrences .promptCanSendTrue es) :
    s.send ≠ .select ∧
    (s.send ≠ .returned → occurrences .promptCanSendTrue es = 1 ∧
      s.canSend.length = 1 ∧ holdsTurn s.send = 1) := by
  obtain ⟨hle, hinv⟩ := tokens_invariant es s h
  constructor
  · intro hsel
    have := hinv (by simp [hsel])
    simp only [hsel, holdsTurn] at this
    omega
  · intro hne
    have := hinv hne
    have hh : holdsTurn s.send ≤ 1 := by
      cases s.send <;> simp [holdsTurn]
    omega

/-- C8 after one cycle: the gate holds one value and the send goroutine is
already inside `readUserInput` with a turn of its own. -/
theorem no_turn_wait_after_release_witness :
    run oneCycle init = some afterOneCycle ∧
    afterOneCycle.send ≠ .select ∧
    (afterOneCycle.send ≠ .returned → occurrences .promptCanSendTrue oneCycle = 1 ∧
      afterOneCycle.canSend.length = 1 ∧ holdsTurn afterOneCycle.send = 1) :=
  ⟨by decide, no_turn_wait_after_release oneCycle afterOneCycle (by decide) (by decide)⟩

/-! ## C9: I/O errors -/

/-- C9: a write error met by the send goroutine and a read error met by the
receive goroutine, whatever the error, make that goroutine print, call
`cancel()` and return; the gate and what has been written are untouched, the
goroutine stays returned along every further schedule (no further write, no
`canSend <- false`, no prompt notification, no further delivery).  The
receive goroutine prints `connection closed` exactly when the error is a
close error with code `CloseNormalClosure`, and the error otherwise. -/
theorem io_error_terminal (s : State) (err : GoError) (hm : s.main = .wgWait) :
    (∀ message, s.send = .writeMessage message →
      step (.writeErr err) s =
        some { s with stdout := s.stdout ++ [.writeError err], ctxDone := true,
                      send := .returned } ∧
      ∀ es s',
        run es { s with stdout := s.stdout ++ [.writeError err], ctxDone := true,
                        send := .returned } = some s' →
        s'.send = .returned ∧ s'.written = s.written ∧
          step .sendCanSendFalse s' = none) ∧
    (s.recv = .readMessage →
      ∃ l : Line,
        (l = .connectionClosed ↔ ∃ text, err = .closeError CloseNormalClosure text) ∧
        (l ≠ .connectionClosed → l = .readError err) ∧
        step (.readErr err) s =
          some { s with stdout := s.stdout ++ [l], ctxDone := true, recv := .returned } ∧
        ∀ es s',
          run es { s with stdout := s.stdout ++ [l], ctxDone := true,
                          recv := .returned } = some s' →
          s'.recv = .returned ∧ delivered s' = delivered s ∧
            step .promptChanHandoff s' = none) := by
  constructor
  · intro message hs
    refine ⟨by simp [step, hs, hm], ?_⟩
    intro es s' h
    have := run_preserves (fun t => t.send = .returned ∧ t.written = s.written)
      (step_keeps_sender_returned s.written) es
      { s with stdout := s.stdout ++ [.writeError err], ctxDone := true,
               send := .returned } s' ⟨rfl, rfl⟩ h
    exact ⟨this.1, this.2, by simp [step, this.1]⟩
  · intro hs
    refine ⟨if IsCloseError err [CloseNormalClosure] then .connectionClosed
      else .readError err, ?_, ?_, by simp [step, hs, hm], ?_⟩
    · cases err <;> simp [IsCloseError]
    · cases err <;> simp [IsCloseError]
    · intro es s' h
      have := run_preserves (fun t => t.recv = .returned ∧ delivered t = delivered s)
        (step_keeps_receiver_returned (delivered s)) es _ s' ⟨rfl, ?_⟩ h
      · exact ⟨this.1, this.2, by simp [step, this.1]⟩
      · simp only [delivered, List.filter_append]
        split_ifs <;> simp

/-- C9 on a write error, and on a read error that is a normal closure. -/
theorem io_error_terminal_witness :
    step (.writeErr (.other "broken pipe".toList)) writingWhileReading =
      some { writingWhileReading with
        stdout := writingWhileReading.stdout ++ [.writeError (.other "broken pipe".toList)],
        ctxDone := true, send := .returned } ∧
    step (.readErr (.closeError CloseNormalClosure [])) writingWhileReading =
      some { writingWhileReading with
        stdout := writingWhileReading.stdout ++ [.connectionClosed],
        ctxDone := true, recv := .returned } := by
  constructor
  · exact ((io_error_terminal writingWhileReading (.other "broken pipe".toList) rfl).1
      "a".toList rfl).1
  · obtain ⟨l, hl, _, hstep, _⟩ :=
      (io_error_terminal writingWhileReading (.closeError CloseNormalClosure []) rfl).2 rfl
    rw [hl.mpr ⟨[], rfl⟩] at hstep
    exact hstep

/-! ## C10: calls of `conn.Close()` -/

/-- C10 (as stated, fails): an interrupt closes the connection, both goroutines
stop, and when `connectAndRun` returns the deferred `conn.Close()` runs as
well: two calls. -/
theorem interrupt_then_return_closes_twice :
    run interruptThenReturn init = some afterInterruptThenReturn ∧
      afterInterruptThenReturn.connCloseCalls = 2 := by
  decide

/-- C10 (amended): in every reachable state the calls of `conn.Close()` are
the interrupt handler's (one, once the handler has run line 55) plus the
deferred one (one, once `connectAndRun` has returned): never more than two,
and at most one as long as the interrupt handler has not closed the
connection, however often `cancel()` was called. -/
theorem close_calls_bound (s : State) (hr : Reachable s) :
    s.connCloseCalls =
      (if s.sig = .returned then 1 else 0) + (if s.main = .returned then 1 else 0) ∧
    s.connCloseCalls ≤ 2 ∧
    (s.sig ≠ .returned → s.connCloseCalls ≤ 1) := by
  obtain ⟨es, hes⟩ := hr
  have hcount := run_preserves
    (fun t => t.connCloseCalls =
      (if t.sig = .returned then 1 else 0) + (if t.main = .returned then 1 else 0))
    step_keeps_close_calls es init s (by decide) hes
  simp only at hcount
  refine ⟨hcount, ?_, ?_⟩
  · split_ifs at hcount <;> omega
  · intro hsig
    rw [if_neg hsig] at hcount
    split_ifs at hcount <;> omega

/-- C10 (amended) at the state after an interrupt and the return. -/
theorem close_calls_bound_witness :
    afterInterruptThenReturn.connCloseCalls =
      (if afterInterruptThenReturn.sig = .returned then 1 else 0) +
        (if afterInterruptThenReturn.main = .returned then 1 else 0) ∧
    afterInterruptThenReturn.connCloseCalls ≤ 2 ∧
    (afterInterruptThenReturn.sig ≠ .returned →
      afterInterruptThenReturn.connCloseCalls ≤ 1) :=
  close_calls_bound afterInterruptThenReturn ⟨interruptThenReturn, by decide⟩

end Wscat
